import Mathlib

/-!
Verification of the New Database extension (`databaseCreator.ts` and its
variants).  The TypeScript source is shallowly embedded: the query-string
builder and the result-set check become pure Lean functions, the
promise/event choreography of `doConnect` and the connection-complete
listener becomes explicit state passing over the tracking map (modelled as
a list of keys), and the orchestrator `doCreateDatabase` becomes a function
from its environmental outcomes (connect result, query result, disconnect
result) to the list of observable effects it produces, in order.
-/

namespace NewDatabase

/-- Embedding of `dbName.replace(/]/g, "]]")` from `runCreateDatabaseQuery`
(part_001 line 180, `databaseCreator.ts` line 67): a global regex replace of
the single character `]` by `]]`, i.e. a character-wise scan doubling every
`]` and leaving every other character unchanged. -/
def escapeRBrackets : List Char → List Char
  | [] => []
  | c :: cs => if c = ']' then ']' :: ']' :: escapeRBrackets cs else c :: escapeRBrackets cs

/-- The template text before the interpolated database name
(part_001 lines 179-180). -/
def queryHead : String := "BEGIN TRY\n    CREATE DATABASE ["

/-- The template text after the interpolated database name
(part_001 lines 180-186). -/
def queryTail : String := "]\n    SELECT 1 AS NoError\nEND TRY\nBEGIN CATCH\n    SELECT ERROR_MESSAGE() AS ErrorMessage;\nEND CATCH\n"

/-- The guarded create-database statement built by `runCreateDatabaseQuery`
(part_001 lines 179-186): the bracket-quoted name with `]` doubled, spliced
into the fixed TRY/CATCH template. -/
def buildCreateDatabaseQuery (dbName : String) : String :=
  queryHead ++ String.mk (escapeRBrackets dbName.data) ++ queryTail

/-- One column descriptor of a result set (`sqlops.IDbColumn`): only the
`columnName` field is read by this extension. -/
structure ColumnInfo where
  columnName : String
deriving DecidableEq

/-- One result cell (`sqlops.DbCellValue`): only `displayValue` is read. -/
structure CellValue where
  displayValue : String
deriving DecidableEq

/-- The shape of `runQueryAndReturn`'s result (`sqlops.SimpleExecuteResult`)
as read by the extension: ordered named columns plus rows of cells. -/
structure SimpleExecuteResult where
  columnInfo : List ColumnInfo
  rows : List (List CellValue)
deriving DecidableEq

/-- Outcome of the JavaScript result-inspection code: normal return, a
`throw new Error(...)` with a message, or a runtime `TypeError` from
indexing `undefined` (e.g. `result.rows[0][0]` when `rows` is empty). -/
inductive JsOutcome where
  | ok
  | thrown (msg : String)
  | typeError
deriving DecidableEq

/-- Embedding of the result inspection in `runCreateDatabaseQuery`
(part_001 lines 187-190):

    if (result.columnInfo[0].columnName === 'ErrorMessage') {
        throw new Error(result.rows[0][0].displayValue);
    }

Each unguarded index is modelled faithfully: `columnInfo[0]` on an empty
list, `rows[0]` on an empty list, or `rows[0][0]` on an empty first row is
`undefined` in JavaScript and the subsequent member access raises a
`TypeError`. -/
def runCreateDatabaseQueryCheck (result : SimpleExecuteResult) : JsOutcome :=
  match result.columnInfo.head? with
  | none => .typeError
  | some col =>
    if col.columnName = "ErrorMessage" then
      match result.rows.head? with
      | none => .typeError
      | some row =>
        match row.head? with
        | none => .typeError
        | some cell => .thrown cell.displayValue
    else .ok

/-- Claim-side characterization for C10: a decision function that sees only
the first column's name and the first cell's display value, to be compared
with `runCreateDatabaseQueryCheck`. -/
def decisionFromFirst (firstColumnName firstCellValue : Option String) : JsOutcome :=
  match firstColumnName with
  | none => .typeError
  | some name =>
    if name = "ErrorMessage" then
      match firstCellValue with
      | none => .typeError
      | some v => .thrown v
    else .ok

end NewDatabase

namespace NewDatabase

/-- C1: the built create-database statement brackets the user-supplied name
with every `]` doubled and every other character unchanged — the statement
equals the fixed template head, then the character-wise escaped name, then
the fixed template tail; in particular the name `a]b` yields a statement
whose CREATE DATABASE line reads `CREATE DATABASE [a]]b]`. -/
theorem createDatabaseQuery_escapes_brackets :
    (∀ dbName : String,
      buildCreateDatabaseQuery dbName =
        queryHead ++
          String.mk (dbName.data.flatMap fun c => if c = ']' then [']', ']'] else [c]) ++
          queryTail) ∧
    buildCreateDatabaseQuery "a]b" =
      "BEGIN TRY\n    CREATE DATABASE [a]]b]\n    SELECT 1 AS NoError\nEND TRY\nBEGIN CATCH\n    SELECT ERROR_MESSAGE() AS ErrorMessage;\nEND CATCH\n" := by
  have hesc : ∀ l : List Char,
      escapeRBrackets l = l.flatMap fun c => if c = ']' then [']', ']'] else [c] := by
    intro l
    induction l with
    | nil => rfl
    | cons c cs ih =>
      by_cases hc : c = ']'
      · simp [escapeRBrackets, hc, ih]
      · simp [escapeRBrackets, hc, ih]
  refine ⟨fun dbName => ?_, by rfl⟩
  simp [buildCreateDatabaseQuery, hesc]

/-- C2: given that the result set has a first column, the executor raises a
failure carrying the first cell's display value exactly when that column is
named `ErrorMessage` (provided the first row and cell exist), and treats
execution as successful for any other first-column name regardless of the
rows present. -/
theorem errorColumn_decides_failure (result : SimpleExecuteResult)
    (col : ColumnInfo) (cols : List ColumnInfo)
    (hcols : result.columnInfo = col :: cols) :
    (col.columnName ≠ "ErrorMessage" → runCreateDatabaseQueryCheck result = .ok) ∧
    (∀ (cell : CellValue) (restCells : List CellValue) (restRows : List (List CellValue)),
      result.rows = (cell :: restCells) :: restRows →
      (runCreateDatabaseQueryCheck result = .thrown cell.displayValue ↔
        col.columnName = "ErrorMessage")) := by
  constructor
  · intro hne
    simp [runCreateDatabaseQueryCheck, hcols, hne]
  · intro cell restCells restRows hrows
    by_cases h : col.columnName = "ErrorMessage"
    · simp [runCreateDatabaseQueryCheck, hcols, hrows, h]
    · simp [runCreateDatabaseQueryCheck, hcols, hrows, h]

/-- Witness for C2 at a concrete result set. -/
theorem errorColumn_decides_failure_witness :
    runCreateDatabaseQueryCheck ⟨[⟨"ErrorMessage"⟩], [[⟨"boom"⟩]]⟩ = .thrown "boom" := by
  have h := errorColumn_decides_failure ⟨[⟨"ErrorMessage"⟩], [[⟨"boom"⟩]]⟩
    ⟨"ErrorMessage"⟩ [] rfl
  exact (h.2 ⟨"boom"⟩ [] [] rfl).mpr rfl

/-- C10: the failure branch indexes the first cell of the first row with no
guard — when the first column is named `ErrorMessage` but the result has no
rows, or an empty first row, the code raises a runtime `TypeError`; and the
whole success/failure decision is a function of only the first column's
name and the first cell's display value. -/
theorem failureBranch_partiality (r : SimpleExecuteResult) :
    runCreateDatabaseQueryCheck r =
      decisionFromFirst ((r.columnInfo.head?).map ColumnInfo.columnName)
        (((r.rows.head?).bind List.head?).map CellValue.displayValue) ∧
    (∀ (col : ColumnInfo) (cols : List ColumnInfo),
      r.columnInfo = col :: cols → col.columnName = "ErrorMessage" →
      r.rows = [] → runCreateDatabaseQueryCheck r = .typeError) ∧
    (∀ (col : ColumnInfo) (cols : List ColumnInfo) (rs : List (List CellValue)),
      r.columnInfo = col :: cols → col.columnName = "ErrorMessage" →
      r.rows = [] :: rs → runCreateDatabaseQueryCheck r = .typeError) := by
  refine ⟨?_, ?_, ?_⟩
  · cases hc : r.columnInfo with
    | nil => simp [runCreateDatabaseQueryCheck, decisionFromFirst, hc]
    | cons col cols =>
      by_cases h : col.columnName = "ErrorMessage"
      · cases hr : r.rows with
        | nil => simp [runCreateDatabaseQueryCheck, decisionFromFirst, hc, hr, h]
        | cons row rows =>
          cases row with
          | nil => simp [runCreateDatabaseQueryCheck, decisionFromFirst, hc, hr, h]
          | cons cell cs => simp [runCreateDatabaseQueryCheck, decisionFromFirst, hc, hr, h]
      · simp [runCreateDatabaseQueryCheck, decisionFromFirst, hc, h]
  · intro col cols hcols hname hrows
    simp [runCreateDatabaseQueryCheck, hcols, hname, hrows]
  · intro col cols rs hcols hname hrows
    simp [runCreateDatabaseQueryCheck, hcols, hname, hrows]

/-- Witness for C10 at a concrete result set with an `ErrorMessage` column
and no rows. -/
theorem failureBranch_partiality_witness :
    runCreateDatabaseQueryCheck ⟨[⟨"ErrorMessage"⟩], []⟩ = .typeError :=
  (failureBranch_partiality ⟨[⟨"ErrorMessage"⟩], []⟩).2.1 ⟨"ErrorMessage"⟩ [] rfl rfl rfl

end NewDatabase

namespace NewDatabase

/-- A connection-complete event (`sqlops.ConnectionInfoSummary`) as read by
the listener in `initConnectionProvider`: the owner URI it correlates on,
the server-assigned connection identifier (the empty string models a
missing/undefined identifier, which is falsy in JavaScript), and the error
message. -/
structure ConnectionInfoSummary where
  ownerUri : String
  connectionId : String
  errorMessage : String
deriving DecidableEq

/-- How a tracked pending promise is settled: `resolve()` on success or
`reject(errorMessage)` on failure. -/
inductive Settlement where
  | resolved
  | rejected (msg : String)
deriving DecidableEq

/-- `Map.set` on the connection tracker, modelled presence-wise over the
list of keys. -/
def trackerSet (tracker : List String) (uri : String) : List String :=
  if uri ∈ tracker then tracker else uri :: tracker

/-- `Map.delete` on the connection tracker. -/
def trackerDelete (tracker : List String) (uri : String) : List String :=
  tracker.filter (fun k => k ≠ uri)

/-- Embedding of the `registerOnConnectionComplete` listener
(part_001 lines 31-42): if the event's `ownerUri` is tracked, resolve the
pending promise when `summary.connectionId` is truthy (non-empty), reject
it with `summary.errorMessage` otherwise, and delete the tracker entry;
an untracked event is ignored.  Returns the settlement performed (if any)
and the tracker afterwards. -/
def onConnectionComplete (tracker : List String) (summary : ConnectionInfoSummary) :
    Option Settlement × List String :=
  if summary.ownerUri ∈ tracker then
    (some (if summary.connectionId ≠ "" then .resolved
           else .rejected summary.errorMessage),
     trackerDelete tracker summary.ownerUri)
  else
    (none, tracker)

/-- The environmental outcome of one `doConnect` attempt: the host rejects
the connect request synchronously (`connect` returns false); a completion
event for the URI arrives within the 15-second window carrying the given
`connectionId` and `errorMessage`; or no event arrives and the
15-second timer rejects the race (`errorOnTimeout`, part_001 lines
193-195). -/
inductive ConnectOutcome where
  | rejected
  | completionEvent (connectionId errorMessage : String)
  | timeout
deriving DecidableEq

/-- Embedding of `doConnect` (part_001 lines 160-176) composed with the
connection-complete listener: set the tracker entry, issue the connect
request; on synchronous rejection delete the entry and return false; on a
completion event the listener settles and deletes the entry, and the race
yields true exactly when the promise resolved; on timeout the race rejects,
the catch returns false, and no tracker deletion is performed.  Returns the
boolean connect result and the tracker afterwards. -/
def doConnect (tracker : List String) (uri : String) (outcome : ConnectOutcome) :
    Bool × List String :=
  let t1 := trackerSet tracker uri
  match outcome with
  | .rejected => (false, trackerDelete t1 uri)
  | .completionEvent connId errMsg =>
    let settled := onConnectionComplete t1 ⟨uri, connId, errMsg⟩
    (match settled.1 with
     | some .resolved => true
     | some (.rejected _) => false
     | none => false,
     settled.2)
  | .timeout => (false, t1)

end NewDatabase

namespace NewDatabase

/-- C3 counterexample: after a pure timeout (no completion event within 15
seconds) the connect attempt resolves false, but the token's pending record
is still present in the tracking map — the claim that the record is absent
after any resolution fails at this input. -/
theorem timeout_leaves_record_counterexample :
    doConnect [] "untitled:createdb0" .timeout = (false, ["untitled:createdb0"]) ∧
    "untitled:createdb0" ∈ (doConnect [] "untitled:createdb0" .timeout).2 := by
  constructor
  · rfl
  · simp [doConnect, trackerSet]

/-- C3 amended: for a fresh token, a timeout resolves the attempt as a
failure but leaves the pending record in the tracking map; the record is
removed only when the connect request is rejected synchronously or when a
completion event for the token arrives (in which case the attempt succeeds
exactly when the event carries a non-empty connection identifier). -/
theorem doConnect_record_removal (tracker : List String) (uri : String)
    (h : uri ∉ tracker) :
    doConnect tracker uri .timeout = (false, uri :: tracker) ∧
    doConnect tracker uri .rejected = (false, tracker) ∧
    (∀ connId errMsg : String,
      (doConnect tracker uri (.completionEvent connId errMsg)).2 = tracker ∧
      ((doConnect tracker uri (.completionEvent connId errMsg)).1 = true ↔
        connId ≠ "")) := by
  have hset : trackerSet tracker uri = uri :: tracker := by
    simp [trackerSet, h]
  have hdel : trackerDelete (uri :: tracker) uri = tracker := by
    simp only [trackerDelete, List.filter_cons]
    have huri : (decide ¬uri = uri) = false := by simp
    rw [huri]
    exact List.filter_eq_self.mpr (fun a ha => by
      simp only [decide_eq_true_eq]
      exact fun heq => h (heq ▸ ha))
  refine ⟨?_, ?_, ?_⟩
  · simp [doConnect, hset]
  · simp [doConnect, hset, hdel]
  · intro connId errMsg
    by_cases hc : connId = ""
    · simp [doConnect, hset, hdel, onConnectionComplete, hc]
    · simp [doConnect, hset, hdel, onConnectionComplete, hc]

/-- Witness for the amended C3 at a fresh concrete token. -/
theorem doConnect_record_removal_witness :
    doConnect [] "untitled:createdb1" .timeout = (false, ["untitled:createdb1"]) ∧
    doConnect [] "untitled:createdb1" .rejected = (false, []) ∧
    (doConnect [] "untitled:createdb1" (.completionEvent "some-id" "")).2 = [] := by
  have h := doConnect_record_removal [] "untitled:createdb1" (by simp)
  exact ⟨h.1, h.2.1, (h.2.2 "some-id" "").1⟩

/-- C7: a completion event for a tracked token resolves the pending record
with success exactly when the event carries a non-empty connection
identifier, rejects it with the event's error message when the identifier
is empty, and in either case removes the record from the tracker. -/
theorem completionEvent_settles (tracker : List String)
    (summary : ConnectionInfoSummary) (h : summary.ownerUri ∈ tracker) :
    ((onConnectionComplete tracker summary).1 = some .resolved ↔
      summary.connectionId ≠ "") ∧
    (summary.connectionId = "" →
      (onConnectionComplete tracker summary).1 =
        some (.rejected summary.errorMessage)) ∧
    summary.ownerUri ∉ (onConnectionComplete tracker summary).2 := by
  refine ⟨?_, ?_, ?_⟩
  · by_cases hc : summary.connectionId = ""
    · simp [onConnectionComplete, h, hc]
    · simp [onConnectionComplete, h, hc]
  · intro hc
    simp [onConnectionComplete, h, hc]
  · simp [onConnectionComplete, h, trackerDelete]

/-- Witness for C7 at a concrete tracked event. -/
theorem completionEvent_settles_witness :
    ((onConnectionComplete ["u1"] ⟨"u1", "id1", ""⟩).1 = some .resolved ↔
      ("id1" : String) ≠ "") ∧
    (("id1" : String) = "" →
      (onConnectionComplete ["u1"] ⟨"u1", "id1", ""⟩).1 = some (.rejected "")) ∧
    ("u1" : String) ∉ (onConnectionComplete ["u1"] ⟨"u1", "id1", ""⟩).2 :=
  completionEvent_settles ["u1"] ⟨"u1", "id1", ""⟩ (by simp)

end NewDatabase

namespace NewDatabase

/-- A connection descriptor as the foreground path reads it: the provider
name checked against `'MSSQL'` and the server option used in prompt text. -/
structure Profile where
  providerName : String
  server : String
deriving DecidableEq

/-- The user-visible effects of the foreground `createDatabase` path: an
information-toast notification, or handing a unit of work to
`sqlops.tasks.startBackgroundOperation` with the given display name.
Prompts (input box, quick pick) are inputs of the model, not
notifications. -/
inductive FgEffect where
  | showInfo (msg : String)
  | startBackgroundOp (displayName : String)
deriving DecidableEq

/-- The environment of one foreground invocation of `createDatabase`
(`databaseCreator.ts` lines 25-48):
* `context`: the `ObjectExplorerContext` argument — `none` for a
  command-palette invocation; `some p` for a context-menu invocation,
  where `p` is the value of `context.connectionProfile` (itself possibly
  absent);
* `currentConnection`: what `sqlops.connection.getCurrentConnection()`
  returns;
* `confirmAnswer`: the quick-pick result — `some true` for Yes, `some
  false` for No, `none` for a dismissed prompt;
* `nameInput`: what the input box resolves with — `none` for a cancelled
  prompt (`some ""` models the falsy empty entry). -/
structure FgEnv where
  context : Option (Option Profile)
  currentConnection : Option Profile
  confirmAnswer : Option Bool
  nameInput : Option String
deriving DecidableEq

/-- Embedding of `lookupConnection` (`databaseCreator.ts` lines 102-120):
use the context's embedded profile when a context was supplied; otherwise
take the current global connection, and — when its provider is `'MSSQL'` —
require the confirmation quick pick to answer Yes, returning `undefined`
on No or dismissal.  The credential merge (lines 109-110) only augments
`connection.options` and is omitted as it affects no observable modelled
here. -/
def lookupConnection (env : FgEnv) : Option Profile :=
  match env.context with
  | some ctxProfile => ctxProfile
  | none =>
    match env.currentConnection with
    | none => none
    | some conn =>
      if conn.providerName = "MSSQL" then
        (if env.confirmAnswer = some true then some conn else none)
      else some conn

/-- Embedding of the JavaScript arrow function
`(value) => value && value.length > 124 ? 'Must be 124 chars or less' : undefined`
(`databaseCreator.ts` line 34): an empty string is falsy, so only a
non-empty value longer than 124 characters is rejected. -/
def validateDbName (value : String) : Option String :=
  if value ≠ "" ∧ value.length > 124 then some "Must be 124 chars or less" else none

/-- Embedding of the foreground `createDatabase` (`databaseCreator.ts`
lines 25-48) as the list of effects it produces: a failed connection
lookup shows the no-active-connection information message and returns; a
cancelled or empty name entry returns silently; otherwise the background
operation is started. -/
def createDatabase (env : FgEnv) : List FgEffect :=
  match lookupConnection env with
  | none => [.showInfo "Cannot create database as no active connection could be found"]
  | some _ =>
    match env.nameInput with
    | none => []
    | some dbName =>
      if dbName = "" then []
      else [.startBackgroundOp ("Creating Database " ++ dbName)]

end NewDatabase

namespace NewDatabase

/-- C4: at the failing input — command-palette invocation with an active
MSSQL connection where the user answers No to (or dismisses) the
confirmation prompt — the code produces the no-active-connection
information notification rather than aborting silently: `lookupConnection`
returns `undefined` and the caller's `if (!connection)` branch shows the
message, contradicting the code's own comment that the early return
avoids it. -/
theorem declineShowsInfoMessage :
    createDatabase ⟨none, some ⟨"MSSQL", "myserver"⟩, some false, some "Sales"⟩ =
      [.showInfo "Cannot create database as no active connection could be found"] ∧
    createDatabase ⟨none, some ⟨"MSSQL", "myserver"⟩, none, some "Sales"⟩ =
      [.showInfo "Cannot create database as no active connection could be found"] := by
  constructor
  · rfl
  · rfl

/-- C6: for a palette invocation with no caller-supplied context and no
resolvable active global connection, the command shows exactly the
informational message and aborts — no background operation is started, and
the handler returns normally (the embedding is a total function, so no
exception escapes). -/
theorem noConnection_shows_info (env : FgEnv)
    (h1 : env.context = none) (h2 : env.currentConnection = none) :
    createDatabase env =
      [.showInfo "Cannot create database as no active connection could be found"] := by
  simp [createDatabase, lookupConnection, h1, h2]

/-- Witness for C6 at the concrete empty environment. -/
theorem noConnection_shows_info_witness :
    createDatabase ⟨none, none, none, none⟩ =
      [.showInfo "Cannot create database as no active connection could be found"] :=
  noConnection_shows_info ⟨none, none, none, none⟩ rfl rfl

/-- C9: every candidate name longer than 124 characters is rejected by the
prompt validator with the message `Must be 124 chars or less` (so the input
box never resolves with it and no connection or statement activity can
follow), and a cancelled or empty name entry aborts the invocation
silently — the effect list is empty, so in particular no background
operation (which performs all connection and statement activity) is
started. -/
theorem nameValidation_rejects_and_aborts (v : String) (env : FgEnv)
    (conn : Profile) (hconn : lookupConnection env = some conn) :
    (v.length > 124 → validateDbName v = some "Must be 124 chars or less") ∧
    ((env.nameInput = none ∨ env.nameInput = some "") → createDatabase env = []) := by
  constructor
  · intro hlen
    have hne : v ≠ "" := by
      intro he
      rw [he] at hlen
      simp [String.length] at hlen
    simp [validateDbName, hne, hlen]
  · rintro (hn | hn) <;> simp [createDatabase, hconn, hn]

/-- Witness for C9: a concrete 125-character name is rejected, and a
cancelled entry on a live context-menu connection produces no effects. -/
theorem nameValidation_rejects_and_aborts_witness :
    ((String.mk (List.replicate 125 'a')).length > 124 ∧
      validateDbName (String.mk (List.replicate 125 'a')) =
        some "Must be 124 chars or less") ∧
    createDatabase ⟨some (some ⟨"MSSQL", "srv"⟩), none, none, none⟩ = [] := by
  have h := nameValidation_rejects_and_aborts (String.mk (List.replicate 125 'a'))
    ⟨some (some ⟨"MSSQL", "srv"⟩), none, none, none⟩ ⟨"MSSQL", "srv"⟩ rfl
  have hlen : (String.mk (List.replicate 125 'a')).length > 124 := by
    simp [String.length]
  exact ⟨⟨hlen, h.1 hlen⟩, h.2 (Or.inl rfl)⟩

end NewDatabase

namespace NewDatabase

/-- The subset of `sqlops.TaskStatus` values this extension reports, plus
the initial `NotStarted` state of a background task. -/
inductive TaskStatus where
  | notStarted
  | inProgress
  | succeeded
  | failed
deriving DecidableEq

/-- The observable effects of the background `doCreateDatabase` unit of
work, in program order: status updates to the operation handle, error and
information toasts, and the `disconnect(tempUri)` call issued in the
`finally` block. -/
inductive BgEffect where
  | updateStatus (status : TaskStatus) (msg : String)
  | showError (msg : String)
  | showInfo (msg : String)
  | disconnect
deriving DecidableEq

/-- The message a JavaScript runtime attaches to the `TypeError` raised by
the unguarded `result.rows[0][0].displayValue` access; its exact text is
host-defined and no claim depends on it. -/
def typeErrorText : String := "Cannot read property of undefined"

/-- The success notification text (part_001 line 90). -/
def successMsg (dbName : String) : String :=
  "Database " ++ dbName ++ " created. Refresh the Databases node to see it"

/-- The failure notification text (part_001 line 96). -/
def failMsg (m : String) : String := "Error adding database: " ++ m

/-- Embedding of `doCreateDatabase` (part_001 lines 73-106) as the list of
effects it produces, given the environmental outcome of the connect attempt
(`outcome`), the result set the query provider returns (`result`), and
whether the `disconnect` call itself succeeds (`disconnectSucceeds`):

1. report `InProgress / Connecting to database`;
2. run `doConnect` on the fresh temporary URI; on false, show the
   connection-failure error toast and return (no terminal status update);
3. otherwise report `InProgress / Executing create database query` and run
   the result check: a thrown error (or runtime `TypeError`) is caught by
   the `catch` block, which shows the error toast and reports `Failed`;
   a normal return reports `Succeeded` and shows the info toast;
4. the `finally` block calls `disconnect(tempUri)` exactly when `connected`
   is true, consuming the call's own success or failure with
   `.then(success => undefined, fail => undefined)` — so
   `disconnectSucceeds` influences nothing. -/
def doCreateDatabase (dbName uri : String) (tracker : List String)
    (outcome : ConnectOutcome) (result : SimpleExecuteResult)
    (disconnectSucceeds : Bool) : List BgEffect :=
  let conn := doConnect tracker uri outcome
  let body :=
    BgEffect.updateStatus .inProgress "Connecting to database" ::
    (if conn.1 = false then
      [BgEffect.showError "Failed to create connection, canceling create database operation"]
    else
      BgEffect.updateStatus .inProgress "Executing create database query" ::
      (match runCreateDatabaseQueryCheck result with
       | .ok =>
         [.updateStatus .succeeded (successMsg dbName), .showInfo (successMsg dbName)]
       | .thrown m =>
         [.showError (failMsg m), .updateStatus .failed (failMsg m)]
       | .typeError =>
         [.showError (failMsg typeErrorText), .updateStatus .failed (failMsg typeErrorText)]))
  body ++ (if conn.1 then [.disconnect] else [])

/-- The sequence of status updates reported to the operation handle, in
order, extracted from an effect trace. -/
def statusUpdates (trace : List BgEffect) : List (TaskStatus × String) :=
  trace.filterMap fun e =>
    match e with
    | .updateStatus st m => some (st, m)
    | _ => none

/-- The position of a reported status in the spec's state machine
`NotStarted → Connecting → Executing → {Succeeded | Failed}`; the two
`InProgress` reports are distinguished by their messages. -/
def statusRank (p : TaskStatus × String) : Nat :=
  match p.1 with
  | .notStarted => 0
  | .inProgress => if p.2 = "Connecting to database" then 1 else 2
  | .succeeded => 3
  | .failed => 3

end NewDatabase

namespace NewDatabase

/-- C5: the trace of the background operation does not depend on whether
the `disconnect` call itself succeeds (its error is swallowed and never
surfaced), and the cleanup `disconnect` appears in the trace exactly once
when the connection was established and not at all otherwise, on every exit
path. -/
theorem cleanup_exactly_once (dbName uri : String) (tracker : List String)
    (outcome : ConnectOutcome) (result : SimpleExecuteResult) (b : Bool) :
    doCreateDatabase dbName uri tracker outcome result b =
      doCreateDatabase dbName uri tracker outcome result true ∧
    (doCreateDatabase dbName uri tracker outcome result b).count .disconnect =
      (if (doConnect tracker uri outcome).1 then 1 else 0) := by
  refine ⟨rfl, ?_⟩
  unfold doCreateDatabase
  cases h : (doConnect tracker uri outcome).1 with
  | false =>
    simp [h, List.count_append, List.count_cons]
  | true =>
    cases hq : runCreateDatabaseQueryCheck result <;>
      simp [h, hq, List.count_append, List.count_cons]

/-- C8 counterexample: when the connect request is rejected, the operation
ends after reporting only `InProgress / Connecting to database` — the
claim that a failed connect terminates the operation by reaching a
terminal (`Succeeded` or `Failed`) reported status fails at this input. -/
theorem failedConnect_noTerminal_counterexample :
    statusUpdates (doCreateDatabase "Sales" "untitled:createdb2" []
        .rejected ⟨[⟨"NoError"⟩], [[⟨"1"⟩]]⟩ true) =
      [(.inProgress, "Connecting to database")] ∧
    (statusUpdates (doCreateDatabase "Sales" "untitled:createdb2" []
        .rejected ⟨[⟨"NoError"⟩], [[⟨"1"⟩]]⟩ true)).filter
      (fun p => p.1 == TaskStatus.succeeded || p.1 == TaskStatus.failed) = [] := by
  constructor
  · rfl
  · rfl

/-- C8 amended: the reported statuses follow the state machine
`NotStarted → Connecting → Executing → {Succeeded | Failed}` strictly
forward, with a message at every transition, never regressing, and with no
retries, and each outcome determines the trace: a failed connect ends the
operation with the status trace stopping at `Connecting` (no terminal
status is reported on that path); after a successful connect, a clean
statement result reaches the terminal `Succeeded` status and a failed
statement (thrown error or runtime `TypeError`) reaches the terminal
`Failed` status carrying the prefixed error message. -/
theorem status_machine_forward (dbName uri : String) (tracker : List String)
    (outcome : ConnectOutcome) (result : SimpleExecuteResult) (b : Bool) :
    ((doConnect tracker uri outcome).1 = false →
      statusUpdates (doCreateDatabase dbName uri tracker outcome result b) =
        [(.inProgress, "Connecting to database")]) ∧
    ((doConnect tracker uri outcome).1 = true →
      ((runCreateDatabaseQueryCheck result = .ok →
        statusUpdates (doCreateDatabase dbName uri tracker outcome result b) =
          [(.inProgress, "Connecting to database"),
           (.inProgress, "Executing create database query"),
           (.succeeded, successMsg dbName)]) ∧
      (∀ m, runCreateDatabaseQueryCheck result = .thrown m →
        statusUpdates (doCreateDatabase dbName uri tracker outcome result b) =
          [(.inProgress, "Connecting to database"),
           (.inProgress, "Executing create database query"),
           (.failed, failMsg m)]) ∧
      (runCreateDatabaseQueryCheck result = .typeError →
        statusUpdates (doCreateDatabase dbName uri tracker outcome result b) =
          [(.inProgress, "Connecting to database"),
           (.inProgress, "Executing create database query"),
           (.failed, failMsg typeErrorText)]))) ∧
    List.Chain' (fun p q => statusRank p < statusRank q)
      (statusUpdates (doCreateDatabase dbName uri tracker outcome result b)) := by
  refine ⟨?_, ?_, ?_⟩
  · intro h
    unfold doCreateDatabase
    simp [h, statusUpdates]
  · intro h
    refine ⟨?_, ?_, ?_⟩
    · intro hq
      unfold doCreateDatabase
      simp [h, hq, statusUpdates]
    · intro m hq
      unfold doCreateDatabase
      simp [h, hq, statusUpdates]
    · intro hq
      unfold doCreateDatabase
      simp [h, hq, statusUpdates]
  · have henum :
        statusUpdates (doCreateDatabase dbName uri tracker outcome result b) =
          [(.inProgress, "Connecting to database")] ∨
        statusUpdates (doCreateDatabase dbName uri tracker outcome result b) =
          [(.inProgress, "Connecting to database"),
           (.inProgress, "Executing create database query"),
           (.succeeded, successMsg dbName)] ∨
        (∃ m, statusUpdates (doCreateDatabase dbName uri tracker outcome result b) =
          [(.inProgress, "Connecting to database"),
           (.inProgress, "Executing create database query"),
           (.failed, failMsg m)]) := by
      unfold doCreateDatabase
      cases h : (doConnect tracker uri outcome).1 with
      | false =>
        left
        simp [h, statusUpdates]
      | true =>
        right
        cases hq : runCreateDatabaseQueryCheck result with
        | ok => left; simp [h, hq, statusUpdates]
        | thrown m => right; exact ⟨m, by simp [h, hq, statusUpdates]⟩
        | typeError => right; exact ⟨typeErrorText, by simp [h, hq, statusUpdates]⟩
    rcases henum with h | h | ⟨m, h⟩ <;> rw [h]
    · simp
    · refine List.chain'_cons.mpr ⟨by simp [statusRank], List.chain'_cons.mpr ⟨?_, ?_⟩⟩
      · simp [statusRank]
      · simp
    · refine List.chain'_cons.mpr ⟨by simp [statusRank], List.chain'_cons.mpr ⟨?_, ?_⟩⟩
      · simp [statusRank]
      · simp

/-- Witness for the amended C8: a successful connect followed by a thrown
statement error reaches the terminal `Failed` status with the prefixed
message. -/
theorem status_machine_forward_witness :
    statusUpdates (doCreateDatabase "Sales" "untitled:createdb3" []
        (.completionEvent "id1" "") ⟨[⟨"ErrorMessage"⟩], [[⟨"dup"⟩]]⟩ true) =
      [(.inProgress, "Connecting to database"),
       (.inProgress, "Executing create database query"),
       (.failed, failMsg "dup")] :=
  ((status_machine_forward "Sales" "untitled:createdb3" [] (.completionEvent "id1" "")
      ⟨[⟨"ErrorMessage"⟩], [[⟨"dup"⟩]]⟩ true).2.1 (by decide)).2.1 "dup" rfl

end NewDatabase
